import Mathlib

/-!
Verification of the InfoService application (src/app_python/src/app.py).

The service is a stateless HTTP application with two JSON endpoints
(`GET /` and `GET /health`), a 404 handler and a 500 handler, built over an
immutable `START_TIME` captured at process start.  We shallowly embed the
handlers as pure Lean functions: wall-clock instants become rationals
(seconds since the Unix epoch), JSON documents become an inductive value
type, and the facts the handlers read from the operating environment
(hostname, platform, CPU count, client address, headers) become explicit
record parameters.
-/

namespace InfoService

/-- JSON-like values, sufficient for the bodies this service produces. -/
inductive JsonVal where
  | str : String → JsonVal
  | int : Int → JsonVal
  | arr : List JsonVal → JsonVal
  | obj : List (String × JsonVal) → JsonVal

/-- Python `int(x)` applied to a real quantity: truncation toward zero. -/
def pyInt (x : ℚ) : ℤ := if 0 ≤ x then ⌊x⌋ else ⌈x⌉

/-- Result of `get_uptime`: the dict `{"seconds": ..., "human": ...}`. -/
structure UptimeInfo where
  seconds : ℤ
  human : String

/-- Embedding of `get_uptime` (app.py lines 47-54).  `startTime` models the
module-level `START_TIME` and `now` models `datetime.now(timezone.utc)`,
both as rational seconds since the epoch.  `delta.total_seconds()` is the
exact difference, `int(...)` truncates toward zero, and Python `//` and `%`
are floor division and floor modulus. -/
def get_uptime (startTime now : ℚ) : UptimeInfo :=
  let seconds : ℤ := pyInt (now - startTime)
  let hours : ℤ := seconds.fdiv 3600
  let minutes : ℤ := (seconds.fmod 3600).fdiv 60
  { seconds := seconds
    human := toString hours ++ " hours, " ++ toString minutes ++ " minutes" }

/-- Left-pad a decimal string with zeroes to width `w`
(Python `%02d`-style formatting used by `datetime.isoformat`). -/
def padZeroes (w : Nat) (s : String) : String :=
  String.mk (List.replicate (w - s.length) '0') ++ s

/-- Two-digit zero-padded field of an ISO-8601 timestamp. -/
def pad2 (n : Nat) : String := padZeroes 2 (toString n)

/-- Four-digit zero-padded year of an ISO-8601 timestamp. -/
def pad4 (n : Nat) : String := padZeroes 4 (toString n)

/-- Six-digit zero-padded microsecond field of an ISO-8601 timestamp. -/
def pad6 (n : Nat) : String := padZeroes 6 (toString n)

/-- Proleptic Gregorian date (year, month, day) from a count of days since
1970-01-01, for the date part of `datetime.isoformat`. -/
def civilFromDays (days : Nat) : Nat × Nat × Nat :=
  let z := days + 719468
  let era := z / 146097
  let doe := z % 146097
  let yoe := (doe - doe / 1460 + doe / 36524 - doe / 146096) / 365
  let doy := doe - (365 * yoe + yoe / 4 - yoe / 100)
  let mp := (5 * doy + 2) / 153
  let d := doy - (153 * mp + 2) / 5 + 1
  let m := if mp < 10 then mp + 3 else mp - 9
  (era * 400 + yoe + (if m ≤ 2 then 1 else 0), m, d)

/-- `YYYY-MM-DD` date part of `datetime.isoformat`. -/
def dateString (days : Nat) : String :=
  let c := civilFromDays days
  pad4 c.1 ++ "-" ++ pad2 c.2.1 ++ "-" ++ pad2 c.2.2

/-- `HH:MM:SS[.ffffff]` time part of `datetime.isoformat`; the microsecond
field is omitted when it is zero, as `datetime.isoformat` does. -/
def timeString (secs micro : Nat) : String :=
  pad2 (secs / 3600) ++ ":" ++ pad2 (secs % 3600 / 60) ++ ":" ++ pad2 (secs % 60) ++
    (if micro = 0 then "" else "." ++ pad6 micro)

/-- Embedding of `datetime.now(timezone.utc).isoformat()` at instant `t`
(rational seconds since the epoch): date, the separator `"T"`, time, and the
fixed UTC offset suffix `"+00:00"` that an aware UTC datetime prints. -/
def isoformat (t : ℚ) : String :=
  let total : Nat := (⌊t⌋).toNat
  let micro : Nat := (⌊t * 1000000⌋).toNat % 1000000
  dateString (total / 86400) ++ "T" ++ timeString (total % 86400) micro ++ "+00:00"

/-- Embedding of `health_check` (app.py lines 106-117): the body of
`GET /health` as an ordered field list. -/
def health_check (startTime now : ℚ) : List (String × JsonVal) :=
  let uptime_info := get_uptime startTime now
  [("status", .str "healthy"),
   ("timestamp", .str (isoformat now)),
   ("uptime_seconds", .int uptime_info.seconds)]

/-- Facts `get_service_information` reads from the operating environment:
`socket.gethostname()`, `platform.system()`, `platform.version()`,
`platform.machine()`, `os.cpu_count()` (which may return `None`), and
`platform.python_version()`. -/
structure SystemFacts where
  hostname : String
  platformSystem : String
  platformVersion : String
  machine : String
  cpuCount : Option Nat
  pythonVersion : String

/-- The parts of the incoming HTTP request the handlers read: method, URL
path, the client address host when available (`request.client` may be
absent), and the header multimap as received. -/
structure RequestInfo where
  method : String
  path : String
  client : Option String
  headers : List (String × String)

/-- Python `x or 0` applied to `os.cpu_count()`: `None` — and the falsy
value `0` — become `0`; any other count passes through. -/
def pyOrZero (c : Option Nat) : Nat :=
  match c with
  | some n => n
  | none => 0

/-- Starlette `request.headers.get(k, d)`: case-insensitive lookup of the
first matching header, returning the default when the header is absent. -/
def headersGet (hs : List (String × String)) (k d : String) : String :=
  match hs.find? (fun p => p.fst.toLower == k.toLower) with
  | some p => p.snd
  | none => d

/-- The value of the first header matching `k` case-insensitively, when one
is present. -/
def headerLookup (hs : List (String × String)) (k : String) : Option String :=
  (hs.find? (fun p => p.fst.toLower == k.toLower)).map Prod.snd

/-- Embedding of `get_service_information` (app.py lines 57-103): the body
of `GET /` as an ordered field list, assembled from the uptime, the system
facts and the incoming request. -/
def get_service_information (sys : SystemFacts) (req : RequestInfo)
    (startTime now : ℚ) : List (String × JsonVal) :=
  let uptime_info := get_uptime startTime now
  [("service", .obj
     [("name", .str "devops-info-service"),
      ("version", .str "1.0.0"),
      ("description", .str "DevOps course info service"),
      ("framework", .str "FastAPI")]),
   ("system", .obj
     [("hostname", .str sys.hostname),
      ("platform", .str sys.platformSystem),
      ("platform_version", .str sys.platformVersion),
      ("architecture", .str sys.machine),
      ("cpu_count", .int (Int.ofNat (pyOrZero sys.cpuCount))),
      ("python_version", .str sys.pythonVersion)]),
   ("runtime", .obj
     [("uptime_seconds", .int uptime_info.seconds),
      ("uptime_human", .str uptime_info.human),
      ("current_time", .str (isoformat now)),
      ("timezone", .str "UTC")]),
   ("request", .obj
     [("client_ip", .str (match req.client with
        | some h => h
        | none => "unknown")),
      ("user_agent", .str (headersGet req.headers "user-agent" "unknown")),
      ("method", .str req.method),
      ("path", .str req.path)]),
   ("endpoints", .arr
     [.obj [("path", .str "/"), ("method", .str "GET"),
            ("description", .str "Service information")],
      .obj [("path", .str "/health"), ("method", .str "GET"),
            ("description", .str "Health check")],
      .obj [("path", .str "/docs"), ("method", .str "GET"),
            ("description", .str "OpenAPI documentation")],
      .obj [("path", .str "/redoc"), ("method", .str "GET"),
            ("description", .str "ReDoc documentation")]])]

/-- Embedding of `not_found_handler` (app.py lines 120-131): HTTP status
and JSON body returned for a request whose path matched no route.  The
exception argument is only logged, never used in the body. -/
def not_found_handler (req : RequestInfo) (exc : String) :
    Nat × List (String × JsonVal) :=
  (404,
   [("error", .str "Not Found"),
    ("message", .str ("The requested endpoint " ++ req.path ++ " does not exist")),
    ("available_endpoints", .arr [.str "/", .str "/health", .str "/docs", .str "/redoc"])])

/-- Embedding of `internal_error_handler` (app.py lines 134-144): HTTP
status and JSON body returned for an unhandled exception.  Neither the
request nor the exception flows into the body; the exception is only
logged. -/
def internal_error_handler (req : RequestInfo) (exc : String) :
    Nat × List (String × JsonVal) :=
  (500,
   [("error", .str "Internal Server Error"),
    ("message", .str "An unexpected error occurred. Please try again later.")])

/-- Field of a JSON object body, by key. -/
def lookupField (o : List (String × JsonVal)) (k : String) : Option JsonVal :=
  o.lookup k

/-- Field of a JSON sub-object two levels deep, by keys. -/
def lookupField2 (o : List (String × JsonVal)) (k1 k2 : String) : Option JsonVal :=
  match o.lookup k1 with
  | some (JsonVal.obj inner) => inner.lookup k2
  | _ => none

/-- Concrete system facts used to instantiate the theorems: a host whose
operating system reports no CPU count. -/
def sampleFacts : SystemFacts :=
  { hostname := "host0", platformSystem := "Linux", platformVersion := "6.1"
    machine := "x86_64", cpuCount := none, pythonVersion := "3.12.0" }

/-- Concrete request used to instantiate the theorems: no client address
and no headers. -/
def sampleRequest : RequestInfo :=
  { method := "GET", path := "/", client := none, headers := [] }

/-- Truncation toward zero agrees with the floor on non-negative
quantities. -/
theorem pyInt_eq_floor {x : ℚ} (h : 0 ≤ x) : pyInt x = ⌊x⌋ := by
  simp [pyInt, h]

/-- Floor division by a natural denominator agrees with Euclidean
division. -/
theorem fdiv_pos_den (a : ℤ) (b : ℕ) : a.fdiv (b : ℤ) = a / (b : ℤ) :=
  @Int.fdiv_eq_ediv a b (by positivity)

/-- Floor modulus by a natural denominator agrees with the Euclidean
modulus. -/
theorem fmod_pos_den (a : ℤ) (b : ℕ) : a.fmod (b : ℤ) = a % (b : ℤ) :=
  @Int.fmod_eq_emod a b (by positivity)

/-- C1: `get_uptime` is a pure function of `startTime` and `now` (hence
deterministic), and whenever the current time is at or after `START_TIME`
it returns `seconds = ⌊now - startTime⌋` together with the human-readable
string built from `hours = seconds div 3600` and
`minutes = (seconds mod 3600) div 60`, truncating with no other
rounding. -/
theorem get_uptime_spec (startTime now : ℚ) (h : startTime ≤ now) :
    (get_uptime startTime now).seconds = ⌊now - startTime⌋ ∧
    (get_uptime startTime now).human =
      toString (⌊now - startTime⌋ / 3600) ++ " hours, " ++
      toString (⌊now - startTime⌋ % 3600 / 60) ++ " minutes" := by
  have h0 : (0:ℚ) ≤ now - startTime := sub_nonneg.mpr h
  have d1 := fdiv_pos_den ⌊now - startTime⌋ 3600
  have d2 := fmod_pos_den ⌊now - startTime⌋ 3600
  have d3 := fdiv_pos_den (⌊now - startTime⌋ % 3600) 60
  refine ⟨by simp [get_uptime, pyInt_eq_floor h0], ?_⟩
  simp [get_uptime, pyInt_eq_floor h0]
  push_cast at d1 d2 d3
  rw [d1, d2, d3]

/-- C1 witness: the theorem instantiated at `startTime = 0`,
`now = 7322`. -/
theorem get_uptime_spec_witness :
    (0:ℚ) ≤ 7322 ∧
    ((get_uptime 0 7322).seconds = ⌊(7322:ℚ) - 0⌋ ∧
     (get_uptime 0 7322).human =
       toString (⌊(7322:ℚ) - 0⌋ / 3600) ++ " hours, " ++
       toString (⌊(7322:ℚ) - 0⌋ % 3600 / 60) ++ " minutes") :=
  ⟨by norm_num, get_uptime_spec 0 7322 (by norm_num)⟩

/-- C2: uptime seconds is non-negative and monotonically non-decreasing
over the process lifetime — for observation instants
`startTime ≤ t1 ≤ t2` the value computed at `t1` is at most the value
computed at `t2` — and both endpoints that report it (`runtime` section of
`GET /`, and `GET /health`) report exactly this value. -/
theorem uptime_nonneg_monotone (startTime t1 t2 : ℚ)
    (h1 : startTime ≤ t1) (h2 : t1 ≤ t2) :
    0 ≤ (get_uptime startTime t1).seconds ∧
    (get_uptime startTime t1).seconds ≤ (get_uptime startTime t2).seconds ∧
    (∀ sys req, lookupField2 (get_service_information sys req startTime t1)
        "runtime" "uptime_seconds" = some (.int (get_uptime startTime t1).seconds)) ∧
    lookupField (health_check startTime t1) "uptime_seconds"
        = some (.int (get_uptime startTime t1).seconds) := by
  have h01 : (0:ℚ) ≤ t1 - startTime := sub_nonneg.mpr h1
  have h02 : (0:ℚ) ≤ t2 - startTime := sub_nonneg.mpr (h1.trans h2)
  refine ⟨?_, ?_, fun sys req => rfl, rfl⟩
  · simp [get_uptime, pyInt_eq_floor h01]
    positivity
  · simp [get_uptime, pyInt_eq_floor h01, pyInt_eq_floor h02]
    exact Int.floor_le_floor (by linarith)

/-- C2 witness: the theorem instantiated at `startTime = 0`, `t1 = 1`,
`t2 = 2`. -/
theorem uptime_nonneg_monotone_witness :
    (0:ℚ) ≤ 1 ∧ (1:ℚ) ≤ 2 ∧
    (0 ≤ (get_uptime 0 1).seconds ∧
     (get_uptime 0 1).seconds ≤ (get_uptime 0 2).seconds ∧
     (∀ sys req, lookupField2 (get_service_information sys req 0 1)
         "runtime" "uptime_seconds" = some (.int (get_uptime 0 1).seconds)) ∧
     lookupField (health_check 0 1) "uptime_seconds"
         = some (.int (get_uptime 0 1).seconds)) :=
  ⟨by norm_num, by norm_num, uptime_nonneg_monotone 0 1 2 (by norm_num) (by norm_num)⟩

/-- C3: for every request, `health_check` returns exactly the fields
`status`, `timestamp`, `uptime_seconds`, with `status = "healthy"`, a
non-negative integer uptime, and a UTC ISO-8601 timestamp that contains
`"T"` and ends in `"+00:00"` or `"Z"`. -/
theorem health_check_spec (startTime now : ℚ) (h : startTime ≤ now) :
    (health_check startTime now).map Prod.fst = ["status", "timestamp", "uptime_seconds"] ∧
    lookupField (health_check startTime now) "status" = some (.str "healthy") ∧
    (∃ u : ℤ, lookupField (health_check startTime now) "uptime_seconds"
        = some (.int u) ∧ 0 ≤ u) ∧
    (∃ ts : String, lookupField (health_check startTime now) "timestamp" = some (.str ts) ∧
      'T' ∈ ts.data ∧ ("+00:00".data <:+ ts.data ∨ "Z".data <:+ ts.data)) := by
  have h0 : (0:ℚ) ≤ now - startTime := sub_nonneg.mpr h
  refine ⟨rfl, rfl, ⟨(get_uptime startTime now).seconds, rfl, ?_⟩,
    ⟨isoformat now, rfl, ?_, ?_⟩⟩
  · simp [get_uptime, pyInt_eq_floor h0]
    positivity
  · simp [isoformat]
  · left
    simp only [isoformat, String.data_append]
    exact ⟨(dateString ((⌊now⌋).toNat / 86400)).data ++
      'T' :: (timeString ((⌊now⌋).toNat % 86400) ((⌊now * 1000000⌋).toNat % 1000000)).data,
      by simp⟩

/-- C3 witness: the theorem instantiated at `startTime = 0`, `now = 1`. -/
theorem health_check_spec_witness :
    (0:ℚ) ≤ 1 ∧
    ((health_check 0 1).map Prod.fst = ["status", "timestamp", "uptime_seconds"] ∧
     lookupField (health_check 0 1) "status" = some (.str "healthy") ∧
     (∃ u : ℤ, lookupField (health_check 0 1) "uptime_seconds"
         = some (.int u) ∧ 0 ≤ u) ∧
     (∃ ts : String, lookupField (health_check 0 1) "timestamp" = some (.str ts) ∧
       'T' ∈ ts.data ∧ ("+00:00".data <:+ ts.data ∨ "Z".data <:+ ts.data))) :=
  ⟨by norm_num, health_check_spec 0 1 (by norm_num)⟩

/-- C4: for every request, the `GET /` body has exactly the five top-level
keys `service`, `system`, `runtime`, `request`, `endpoints`, in this
order, with no key missing and none added. -/
theorem service_info_top_keys (sys : SystemFacts) (req : RequestInfo)
    (startTime now : ℚ) :
    (get_service_information sys req startTime now).map Prod.fst
      = ["service", "system", "runtime", "request", "endpoints"] := rfl

/-- C5: for every request, the `endpoints` field of the `GET /` body is
exactly the fixed, hardcoded list of four entries for `/`, `/health`,
`/docs`, `/redoc`, in that order, each with a method and a description. -/
theorem service_info_endpoints_fixed (sys : SystemFacts) (req : RequestInfo)
    (startTime now : ℚ) :
    lookupField (get_service_information sys req startTime now) "endpoints"
      = some (.arr
        [.obj [("path", .str "/"), ("method", .str "GET"),
               ("description", .str "Service information")],
         .obj [("path", .str "/health"), ("method", .str "GET"),
               ("description", .str "Health check")],
         .obj [("path", .str "/docs"), ("method", .str "GET"),
               ("description", .str "OpenAPI documentation")],
         .obj [("path", .str "/redoc"), ("method", .str "GET"),
               ("description", .str "ReDoc documentation")]]) := rfl

/-- C6: for every request, the `request` section of the `GET /` body
echoes the request method and path, the client IP (or `"unknown"` when the
client address is unavailable), and the User-Agent header value verbatim
(or `"unknown"` when the header is absent). -/
theorem service_info_request_echo (sys : SystemFacts) (startTime now : ℚ)
    (method path : String) (client : Option String) (headers : List (String × String)) :
    (lookupField2 (get_service_information sys ⟨method, path, client, headers⟩ startTime now)
        "request" "method" = some (.str method)) ∧
    (lookupField2 (get_service_information sys ⟨method, path, client, headers⟩ startTime now)
        "request" "path" = some (.str path)) ∧
    (lookupField2 (get_service_information sys ⟨method, path, client, headers⟩ startTime now)
        "request" "client_ip" = some (.str (client.getD "unknown"))) ∧
    (lookupField2 (get_service_information sys ⟨method, path, client, headers⟩ startTime now)
        "request" "user_agent" = some (.str (headersGet headers "user-agent" "unknown"))) ∧
    (∀ v, headerLookup headers "user-agent" = some v →
        headersGet headers "user-agent" "unknown" = v) ∧
    (headerLookup headers "user-agent" = none →
        headersGet headers "user-agent" "unknown" = "unknown") := by
  refine ⟨rfl, rfl, ?_, rfl, ?_, ?_⟩
  · cases client <;> rfl
  · intro v hv
    unfold headerLookup at hv
    unfold headersGet
    cases hf : List.find? (fun p => p.fst.toLower == "user-agent".toLower) headers <;>
      simp [hf] at hv ⊢
    exact hv
  · intro hv
    unfold headerLookup at hv
    unfold headersGet
    cases hf : List.find? (fun p => p.fst.toLower == "user-agent".toLower) headers <;>
      simp [hf] at hv ⊢

/-- C7: `get_service_information` is a total function — it returns a body
for every environment and request — and substitutes documented defaults
instead of erroring: when the operating system reports no CPU count the
`system.cpu_count` field is `0`, and when the client address is
unavailable the `request.client_ip` field is `"unknown"`. -/
theorem service_info_defaults (sys : SystemFacts) (req : RequestInfo)
    (startTime now : ℚ) (hc : sys.cpuCount = none) (hcl : req.client = none) :
    lookupField2 (get_service_information sys req startTime now) "system" "cpu_count"
        = some (.int 0) ∧
    lookupField2 (get_service_information sys req startTime now) "request" "client_ip"
        = some (.str "unknown") := by
  constructor
  · simp only [get_service_information, lookupField2, pyOrZero, hc]
    rfl
  · simp only [get_service_information, lookupField2, hcl]
    rfl

/-- C7 witness: the theorem instantiated at the sample environment with no
CPU count and the sample request with no client address. -/
theorem service_info_defaults_witness :
    sampleFacts.cpuCount = none ∧ sampleRequest.client = none ∧
    (lookupField2 (get_service_information sampleFacts sampleRequest 0 1)
        "system" "cpu_count" = some (.int 0) ∧
     lookupField2 (get_service_information sampleFacts sampleRequest 0 1)
        "request" "client_ip" = some (.str "unknown")) :=
  ⟨rfl, rfl, service_info_defaults sampleFacts sampleRequest 0 1 rfl rfl⟩

/-- C8: for every request whose path matched no route, the 404 handler
returns status 404 with a structured body whose `error` field is
`"Not Found"`, which carries a human message, and whose
`available_endpoints` list contains `/` and `/health`. -/
theorem not_found_structured (req : RequestInfo) (exc : String) :
    (not_found_handler req exc).fst = 404 ∧
    (lookupField (not_found_handler req exc).snd "error" = some (.str "Not Found")) ∧
    (∃ m : String, lookupField (not_found_handler req exc).snd "message" = some (.str m)) ∧
    (∃ l, lookupField (not_found_handler req exc).snd "available_endpoints"
        = some (.arr l) ∧ JsonVal.str "/" ∈ l ∧ JsonVal.str "/health" ∈ l) := by
  refine ⟨rfl, rfl, ⟨_, rfl⟩, ⟨_, rfl, ?_, ?_⟩⟩ <;> simp

/-- C9: the 500 handler returns the same fixed structured body — status
500, `error = "Internal Server Error"`, and a generic message — for every
request and every exception: any two invocations produce equal bodies, so
no detail of the fault leaks into the response. -/
theorem internal_error_uniform (r1 r2 : RequestInfo) (e1 e2 : String) :
    internal_error_handler r1 e1 = internal_error_handler r2 e2 ∧
    (internal_error_handler r1 e1).fst = 500 ∧
    (internal_error_handler r1 e1).snd =
      [("error", .str "Internal Server Error"),
       ("message", .str "An unexpected error occurred. Please try again later.")] :=
  ⟨rfl, rfl, rfl⟩

/-- C10: for every unmatched path, the 404 body's `message` field embeds
the requested path verbatim:
`"The requested endpoint " ++ path ++ " does not exist"`. -/
theorem not_found_message_path (req : RequestInfo) (exc : String) :
    lookupField (not_found_handler req exc).snd "message"
      = some (.str ("The requested endpoint " ++ req.path ++ " does not exist")) := rfl

end InfoService
